import Mathlib

/-!
# Verification of the audit-scanner report pipeline

Shallow embedding of the audit-scanner repository (Go) in Lean 4:
the SUSE Observability report sink (`internal/report/suseobs_store.go`,
snapshot-framing lineage), the CRD report store (`internal/report/store.go`),
the sink-selection logic of the root command (`cmd` package) and the
`startScanner` entry points of both command lineages.

Pure data is translated directly; stateful Kubernetes interactions are
modelled by explicit state passing (the CRD store is an association list of
reports keyed by namespace and name); HTTP interactions are modelled by an
explicit outcome value supplied to the function under verification.
-/

namespace AuditScanner

/-! ## Data model shared by the sinks

Mirrors `sigs.k8s.io/wg-policy-prototypes` `PolicyReport` /
`ClusterPolicyReport` restricted to the fields the audit-scanner reads or
writes, plus `corev1.ObjectReference` restricted likewise. -/

/-- Embedding of `corev1.ObjectReference` (fields used by the scanner). -/
structure ObjectReference where
  apiVersion : String
  kind : String
  namespc : String
  name : String
  uid : String
  resourceVersion : String
deriving Repr, DecidableEq

/-- One entry of the `PolicyReport.Results` (fields used by the sinks). -/
structure PolicyReportResult where
  policy : String
  result : String
  description : String
deriving Repr, DecidableEq

/-- Embedding of `PolicyReportSummary`. -/
structure PolicyReportSummary where
  pass : Int
  fail : Int
  warn : Int
  error : Int
  skip : Int
deriving Repr, DecidableEq

/-- A `PolicyReport` (namespaced) or `ClusterPolicyReport` (then `namespc`
is empty), restricted to the fields the store reads or writes.  Labels and
owner references are kept as plain association lists / name lists. -/
structure PolicyReportK where
  name : String
  namespc : String
  labels : List (String × String)
  ownerReferences : List String
  scope : ObjectReference
  summary : PolicyReportSummary
  results : List PolicyReportResult
deriving Repr, DecidableEq

/-- Embedding of Go `strings.ToLower` (ASCII case mapping; every string the
scanner feeds through it in the claims under study is ASCII). -/
def goToLower (s : String) : String :=
  s.map Char.toLower

/-! ## SUSE Observability sink (`internal/report/suseobs_store.go`,
snapshot-framing lineage) -/

/-- Embedding of the `SuseObsStore` configuration fields (the HTTP client is modelled by the
explicit outcome passed to `sendRequest`). -/
structure SuseObsStore where
  apiKey : String
  internalHostname : String
  urn : String
  cluster : String
  repeatInterval : Int
  expireInterval : Int
deriving Repr, DecidableEq

/-- Embedding of `SuseObsCheckState`. -/
structure SuseObsCheckState where
  checkStateId : String
  message : String
  health : String
  topologyElementIdentifier : String
  name : String
deriving Repr, DecidableEq

/-- Go `generateCheckStateId` (suseobs_store.go): lowercase concatenation of
the policy name, the scope's namespace, kind and name, with the policy name
repeated at the end. -/
def generateCheckStateId (policy : String) (scope : ObjectReference) : String :=
  goToLower (policy ++ "-" ++ scope.namespc ++ "-" ++ scope.kind ++ "-" ++ scope.name ++ "-" ++ policy)

/-- The check state built for one `PolicyReport` result in
`generateCheckStates`. -/
def checkStateOfResult (s : SuseObsStore) (scope : ObjectReference)
    (result : PolicyReportResult) : SuseObsCheckState :=
  { checkStateId := generateCheckStateId result.policy scope
    message := result.description
    health := if result.result = "fail" then ("Deviating") else ("Clear")
    topologyElementIdentifier :=
      goToLower ("urn:kubernetes:/" ++ s.cluster ++ ":" ++ scope.namespc ++ ":" ++ scope.kind ++ "/" ++ scope.name)
    name := result.policy }

/-- Go `generateCheckStates` (PolicyReport path): one check state appended per
result of the report, in order. -/
def generateCheckStates (s : SuseObsStore) (policyReport : PolicyReportK) :
    List SuseObsCheckState :=
  policyReport.results.map (checkStateOfResult s policyReport.scope)

/-- The check state built for one `ClusterPolicyReport` result in
`generateCheckStatesFromClusterPolicyReport` (its topology identifier omits
the namespace component). -/
def clusterCheckStateOfResult (s : SuseObsStore) (scope : ObjectReference)
    (result : PolicyReportResult) : SuseObsCheckState :=
  { checkStateId := generateCheckStateId result.policy scope
    message := result.description
    health := if result.result = "fail" then ("Deviating") else ("Clear")
    topologyElementIdentifier :=
      goToLower ("urn:kubernetes:/" ++ s.cluster ++ ":" ++ scope.kind ++ "/" ++ scope.name)
    name := result.policy }

/-- Go `generateCheckStatesFromClusterPolicyReport`. -/
def generateCheckStatesFromClusterPolicyReport (s : SuseObsStore)
    (policyReport : PolicyReportK) : List SuseObsCheckState :=
  policyReport.results.map (clusterCheckStateOfResult s policyReport.scope)

/-- Outcome of `http.Client.Post` as observed by `sendRequest`: either a
transport error, or a response carrying `StatusCode` (numeric) and
`Status` (the status line rendered by Go). -/
inductive PostOutcome where
  | netErr : PostOutcome
  | resp (statusCode : Nat) (status : String) : PostOutcome
deriving Repr, DecidableEq

/-- The JSON payload sent by the sink, reduced to the data `sendRequest`
depends on; `none` stands for a `nil` payload pointer (which
`json.Marshal` serialises as `null` without failing). -/
def SuseObsPayload := Option (List SuseObsCheckState)

/-- Go `sendRequest` (suseobs_store.go, snapshot lineage): marshal the payload
(never fails for these types), POST it, error on transport failure, and
error whenever the response status code differs from `http.StatusOK`
(200). -/
def sendRequest (payload : SuseObsPayload) (post : PostOutcome) : Except String Unit :=
  match payload, post with
  | _, .netErr => .error ("failed to send SUSE OBS payload")
  | _, .resp statusCode status =>
      if statusCode ≠ 200 then
        .error ("SUSE Obs returned an error. Status code: " ++ status)
      else
        .ok ()

/-- Go `createStartSnapshotPayload`: builds the empty-check-state payload via
`generateSuseObsJsonPayload`, which fails exactly when `url.Parse` rejects
the configured base URL (`parseOk = false` models that rejection). -/
def createStartSnapshotPayload (parseOk : Bool) : Except String SuseObsPayload :=
  if parseOk then .ok (some []) else .error ("failed to parse SUSE OBS URL")

/-- Go `BeforeScanning` (suseobs_store.go): builds the start-snapshot payload;
on construction failure the joined error is assigned to `err` but then
dropped, and `sendRequest` is invoked with the `nil` payload; the returned
value is always the result of `sendRequest`. -/
def BeforeScanning (parseOk : Bool) (post : PostOutcome) : Except String Unit :=
  match createStartSnapshotPayload parseOk with
  | .ok payload => sendRequest payload post
  | .error _constructionErr => sendRequest none post

/-! ## CRD report store (`internal/report/store.go`)

The Kubernetes backend is modelled as an explicit list of stored
`PolicyReport` objects; `client.Get`/`Create`/`Update` become lookups and
edits of that list, keyed — as in Kubernetes — by (namespace, name). -/

/-- Errors surfaced by the modelled Kubernetes client. -/
inductive StoreError where
  | alreadyExists : StoreError
  | notFound : StoreError
deriving Repr, DecidableEq

/-- Modelled from the spec: the helper `getNamespacedReportName` called by
`GetPolicyReport` is not under `src/`; its call sites pass only the
namespace, so the per-namespace report name is a function of the namespace
alone.  The concrete prefix chosen here is immaterial: the theorems either
quantify over the naming function or use this definition only as one
concrete instance of it. -/
def getNamespacedReportName (namespc : String) : String :=
  "polr-ns-" ++ namespc

/-- Key predicate of the modelled Kubernetes object store: a stored report
answers for (namespace, name). -/
def reportKeyMatches (namespc name : String) (p : PolicyReportK) : Bool :=
  p.namespc == namespc && p.name == name

/-- Go `GetPolicyReport` (store.go): fetches the report stored under the
namespace-derived name `nm namespace` in namespace `namespace`; `nm`
abstracts `getNamespacedReportName`. -/
def getPolicyReportFrom (nm : String → String) (st : List PolicyReportK)
    (namespc : String) : Option PolicyReportK :=
  st.find? (reportKeyMatches namespc (nm namespc))

/-- Go `createPolicyReport` (store.go): `client.Create` of the passed
report, which Kubernetes rejects with AlreadyExists when an object with the
same namespace and name is already stored. -/
def createPolicyReport (st : List PolicyReportK) (r : PolicyReportK) :
    Except StoreError (List PolicyReportK) :=
  if st.any (reportKeyMatches r.namespc r.name) then
    .error .alreadyExists
  else
    .ok (st ++ [r])

/-- Helper for the modelled `client.Update`: replace the first stored report
matching (namespace, name) by `new`. -/
def updateReportIn (st : List PolicyReportK) (namespc name : String)
    (new : PolicyReportK) : List PolicyReportK :=
  match st with
  | [] => []
  | p :: rest =>
      if reportKeyMatches namespc name p then new :: rest
      else p :: updateReportIn rest namespc name new

/-- Go `SavePolicyReport` (store.go): look up the existing report by
`GetPolicyReport(report.GetNamespace())`; if none is found, create the
passed report (under its own caller-set name); otherwise re-fetch the
latest stored report, overwrite only its `Summary` and `Results` with the
new report's values, and update it in place.  With no concurrent writer the
retried closure is deterministic, so one attempt is modelled; the retry
combinator itself is modelled separately as `retryOnConflict`. -/
def savePolicyReport (nm : String → String) (st : List PolicyReportK)
    (report : PolicyReportK) : Except StoreError (List PolicyReportK) :=
  match getPolicyReportFrom nm st report.namespc with
  | none => createPolicyReport st report
  | some latestReport =>
      .ok (updateReportIn st report.namespc (nm report.namespc)
        { latestReport with summary := report.summary, results := report.results })

/-- Outcome of one attempt of the closure passed to
`retry.RetryOnConflict`. -/
inductive AttemptOutcome where
  | conflict : AttemptOutcome
  | ok : AttemptOutcome
  | otherErr : AttemptOutcome
deriving Repr, DecidableEq

/-- Overall result of `retry.RetryOnConflict`. -/
inductive RetryResult where
  | success : RetryResult
  | conflictExhausted : RetryResult
  | failed : RetryResult
deriving Repr, DecidableEq

/-- Steps budget of `client-go`'s `retry.DefaultRetry`
(`wait.Backoff{Steps: 5, ...}`): the closure is attempted up to five
times. -/
def defaultRetrySteps : Nat := 5

/-- Loop of `retry.RetryOnConflict`: run the attempts in order, retrying
only on conflict, until the budget is exhausted. -/
def retryOnConflictAux (steps i : Nat) (f : Nat → AttemptOutcome) : RetryResult :=
  match steps with
  | 0 => .conflictExhausted
  | steps' + 1 =>
      match f i with
      | .ok => .success
      | .otherErr => .failed
      | .conflict => retryOnConflictAux steps' (i + 1) f

/-- Go `retry.RetryOnConflict(backoff, fn)` where the outcome of the `i`-th
attempt of `fn` is `f i`. -/
def retryOnConflict (steps : Nat) (f : Nat → AttemptOutcome) : RetryResult :=
  retryOnConflictAux steps 0 f

/-! ## Command layer

Both lineages of the `cmd` package are embedded: the slog lineage
(`src/cmd/root.go`) in namespace `RootCmd` and the zerolog / SUSE
Observability lineage (`src/unnamed/part_002`) in namespace `SuseObsCmd`.
Each `startScanner` is embedded as a function from the flag values and the
behaviour of the scanner's operations to the emitted event trace and the
returned value. -/

/-- Work performed by the scan engine (evaluations, paging, reaping, …).
The engine internals are not under `src/`; any work trace is admitted. -/
inductive WorkEvent where
  | scanClusterWideStarted : WorkEvent
  | scanNamespaceStarted (namespc : String) : WorkEvent
  | scanAllNamespacesStarted : WorkEvent
  | evaluation (policy resource : String) : WorkEvent
  | reap : WorkEvent
deriving Repr, DecidableEq

/-- Sink life-cycle hooks invoked by the command layer. -/
inductive HookEvent where
  | beforeScan : HookEvent
  | afterScan : HookEvent
deriving Repr, DecidableEq

/-- Observable events of one command invocation. -/
inductive Event where
  | hook (h : HookEvent) : Event
  | work (w : WorkEvent) : Event
  | warnConflict : Event
  | fatalExit : Event
deriving Repr, DecidableEq

/-- Behaviour of the scanner's three scan operations: the work trace each
produces and the value each returns.  Leaving these arbitrary quantifies
over every possible engine behaviour (success, failure, cancellation). -/
structure ScanOps where
  clusterWideTrace : List WorkEvent
  clusterWideResult : Except String Unit
  namespaceTrace : String → List WorkEvent
  namespaceResult : String → Except String Unit
  allNamespacesTrace : List WorkEvent
  allNamespacesResult : Except String Unit

/-- Scan work and return value selected by the flag combination, shared by
both lineages (the bodies after the conflicting-flags check coincide):
cluster-wide only, single namespace, or the default cluster-wide scan
followed — only on its success — by the all-namespaces scan. -/
def scanDispatch (namespc : String) (clusterWide : Bool) (ops : ScanOps) :
    List WorkEvent × Except String Unit :=
  if clusterWide then
    (ops.clusterWideTrace, ops.clusterWideResult)
  else if namespc ≠ "" then
    (ops.namespaceTrace namespc, ops.namespaceResult namespc)
  else
    match ops.clusterWideResult with
    | .error e => (ops.clusterWideTrace, .error e)
    | .ok () => (ops.clusterWideTrace ++ ops.allNamespacesTrace, ops.allNamespacesResult)

namespace RootCmd

/-- Go `startScanner` (src/cmd/root.go, slog lineage): when both flags are
supplied it only prints the complaint to stderr with `fmt.Fprintln` and
falls through; it installs no sink hooks; it then dispatches on the flags
and returns the scan's error value (a `nil` return makes the process exit
0). -/
def startScanner (namespc : String) (clusterWide : Bool) (ops : ScanOps) :
    List Event × Except String Unit :=
  let warnTrace : List Event :=
    if clusterWide && namespc ≠ "" then [.warnConflict] else []
  let scanned := AuditScanner.scanDispatch namespc clusterWide ops
  (warnTrace ++ scanned.1.map .work, scanned.2)

end RootCmd

namespace SuseObsCmd

/-- Go `startScanner` (src/unnamed/part_002, zerolog lineage): when both
flags are supplied, `log.Fatal()` writes the message and calls
`os.Exit(1)` — nothing else runs (result `none`); otherwise it invokes
`scanner.BeforeScan`, defers `scanner.AfterScan` (which therefore runs
after the dispatched scan returns, successful or not), and dispatches on
the flags. -/
def startScanner (namespc : String) (clusterWide : Bool) (ops : ScanOps) :
    List Event × Option (Except String Unit) :=
  if clusterWide && namespc ≠ "" then
    ([.fatalExit], none)
  else
    let scanned := AuditScanner.scanDispatch namespc clusterWide ops
    ([.hook .beforeScan] ++ scanned.1.map .work ++ [.hook .afterScan], some scanned.2)

/-- The SUSE Observability flag values read by `NewRootCommand`
(src/unnamed/part_002).  The two `…Provided` fields record whether the
duration flags were supplied on the command line; both flags carry a 30m
default and the selection code never consults them. -/
structure ObsFlags where
  suseObsURL : String
  suseObsApiKey : String
  suseObsUrn : String
  suseObsCluster : String
  repeatIntervalProvided : Bool
  expireIntervalProvided : Bool
deriving Repr, DecidableEq

/-- Report store picked by `NewRootCommand`. -/
inductive StoreChoice where
  | suseObs : StoreChoice
  | crd : StoreChoice
deriving Repr, DecidableEq

/-- Sink selection of `NewRootCommand` (src/unnamed/part_002, lines
127–134): the SUSE Observability store replaces the CRD store exactly when
the four string flags URL, API key, URN and cluster are non-empty. -/
def chooseReportStore (f : ObsFlags) : StoreChoice :=
  if f.suseObsURL.length > 0 && f.suseObsApiKey.length > 0 &&
      f.suseObsUrn.length > 0 && f.suseObsCluster.length > 0 then
    .suseObs
  else
    .crd

/-- Spec-side notion for the refinement comparison of claim C9, following
the spec's words: all five primary observability flags (`--suseobs-url`,
`--suseobs-apikey`, `--suseobs-urn`, `--suseobs-cluster`,
`--suseobs-repeat-interval`) are set. -/
def allFivePrimaryObsFlagsSet (f : ObsFlags) : Prop :=
  f.suseObsURL ≠ "" ∧ f.suseObsApiKey ≠ "" ∧ f.suseObsUrn ≠ "" ∧
    f.suseObsCluster ≠ "" ∧ f.repeatIntervalProvided = true

instance (f : ObsFlags) : Decidable (allFivePrimaryObsFlagsSet f) := by
  unfold allFivePrimaryObsFlagsSet
  infer_instance

end SuseObsCmd

/-! ## Policy catalogue filter

Modelled from the spec: `internal/policies/client.go` is not under `src/`
(only its callers and the scanner tests are), so the auditable-policy
filter and the per-resource pipeline are modelled from spec §4.2 and §4.4:
a policy contributes evaluations only if its status is active, its
`backgroundAudit` flag is not false, one of its rules covers the resource's
group/version/resource with a `CREATE` or `*` operation, and its object
selector matches the object's labels. -/

/-- Status of an admission policy (spec §3). -/
inductive PolicyStatus where
  | active : PolicyStatus
  | pending : PolicyStatus
  | failed : PolicyStatus
deriving Repr, DecidableEq

/-- One admission rule (spec §3): API groups × API versions × resources ×
operations. -/
structure PolicyRule where
  apiGroups : List String
  apiVersions : List String
  resources : List String
  operations : List String
deriving Repr, DecidableEq

/-- Group/version/resource of a scannable object. -/
structure GVR where
  group : String
  version : String
  resource : String
deriving Repr, DecidableEq

/-- An admission policy (spec §3), restricted to the attributes the
auditable filter consumes.  The object selector is a label match
(`matchLabels`); `none` means no selector. -/
structure Policy where
  name : String
  status : PolicyStatus
  backgroundAudit : Bool
  rules : List PolicyRule
  objectSelector : Option (List (String × String))
deriving Repr, DecidableEq

/-- A scannable Kubernetes object (spec §3), restricted to what matching
needs. -/
structure K8sObject where
  gvr : GVR
  namespc : String
  name : String
  uid : String
  labels : List (String × String)
deriving Repr, DecidableEq

/-- Modelled from the spec (§4.2): a rule covers a GVR when its groups,
versions and resources contain the object's, and its operations contain
`CREATE` or `*`. -/
def ruleMatchesGVR (rule : PolicyRule) (g : GVR) : Bool :=
  rule.apiGroups.contains g.group && rule.apiVersions.contains g.version &&
    rule.resources.contains g.resource &&
    (rule.operations.contains ("CREATE") || rule.operations.contains ("*"))

/-- Modelled from the spec (§4.2): the policy filter of the catalogue —
status must be active, `backgroundAudit` must not be false, and some rule
must cover the GVR. -/
def policyIsAuditable (p : Policy) (g : GVR) : Bool :=
  decide (p.status = .active) && p.backgroundAudit &&
    p.rules.any (fun r => ruleMatchesGVR r g)

/-- Modelled from the spec (§4.2): `selectorMatches` — an absent selector
matches every object; a `matchLabels` selector requires every listed pair
among the object's labels. -/
def selectorMatches (sel : Option (List (String × String))) (obj : K8sObject) : Bool :=
  match sel with
  | none => true
  | some kvs => kvs.all (fun kv => obj.labels.contains kv)

/-- Modelled from the spec (§4.4, per-resource pipeline steps 1–2): the
policies that evaluate against a given object. -/
def auditablePoliciesFor (ps : List Policy) (obj : K8sObject) : List Policy :=
  ps.filter (fun p => policyIsAuditable p obj.gvr && selectorMatches p.objectSelector obj)

/-- An evaluation outcome as recorded in a report result (spec §3). -/
structure EvaluationResult where
  policy : String
  outcome : String
deriving Repr, DecidableEq

/-- Modelled from the spec (§4.4, steps 3–6): the results vector of the
report produced for one resource — one slot per auditable policy, in
catalogue order; `oracle` abstracts the policy-server evaluation of each
policy against the object.  `none` means no report is produced (no policy
matched). -/
def auditResource (oracle : Policy → String) (ps : List Policy) (obj : K8sObject) :
    Option (List EvaluationResult) :=
  let applicable := auditablePoliciesFor ps obj
  if applicable.isEmpty then none
  else some (applicable.map (fun p => { policy := p.name, outcome := oracle p }))

/-! ## Concrete instances used by counterexamples and witnesses -/

/-- A rule matching core/v1 pods on CREATE. -/
def podsRule : PolicyRule :=
  { apiGroups := [""], apiVersions := ["v1"], resources := ["pods"], operations := ["CREATE"] }

/-- An active, background-auditable pod policy. -/
def activePodPolicy : Policy :=
  { name := "policy-a", status := .active, backgroundAudit := true
    rules := [podsRule], objectSelector := none }

/-- A pod policy whose status is pending (not active). -/
def pendingPodPolicy : Policy :=
  { name := "policy-b", status := .pending, backgroundAudit := true
    rules := [podsRule], objectSelector := none }

/-- A concrete scannable pod. -/
def pod1Object : K8sObject :=
  { gvr := { group := "", version := "v1", resource := "pods" }
    namespc := "namespace1", name := "pod1", uid := "pod1-uid", labels := [] }

/-- A per-resource report named by the resource UID, as built by the
scanner lineage whose tests live in `internal/scanner/scanner_test.go`. -/
def pod1Report : PolicyReportK :=
  { name := "pod1-uid"
    namespc := "namespace1"
    labels := [("app.kubernetes.io/managed-by", "kubewarden"), ("kubewarden.io/scan-run-uid", "run-1")]
    ownerReferences := ["pod1"]
    scope := { apiVersion := "v1", kind := "Pod", namespc := "namespace1",
               name := "pod1", uid := "pod1-uid", resourceVersion := "1" }
    summary := { pass := 1, fail := 0, warn := 0, error := 0, skip := 0 }
    results := [{ policy := "policy1", result := "pass", description := "" }] }

/-- A stored per-namespace report carrying the namespace-derived name, as
the old store lineage creates it. -/
def existingNsReport : PolicyReportK :=
  { name := getNamespacedReportName ("namespace1")
    namespc := "namespace1"
    labels := [("app.kubernetes.io/managed-by", "kubewarden"), ("kubewarden.io/scan-run-uid", "run-old")]
    ownerReferences := ["old-owner"]
    scope := { apiVersion := "v1", kind := "Pod", namespc := "namespace1",
               name := "old-pod", uid := "old-uid", resourceVersion := "7" }
    summary := { pass := 0, fail := 1, warn := 0, error := 0, skip := 0 }
    results := [{ policy := "policy-old", result := "fail", description := "old" }] }

/-- An incoming report for the same namespace with fresh labels, owner
references, scope, summary and results. -/
def incomingNsReport : PolicyReportK :=
  { name := getNamespacedReportName ("namespace1")
    namespc := "namespace1"
    labels := [("app.kubernetes.io/managed-by", "kubewarden"), ("kubewarden.io/scan-run-uid", "run-new")]
    ownerReferences := ["new-owner"]
    scope := { apiVersion := "v1", kind := "Pod", namespc := "namespace1",
               name := "new-pod", uid := "new-uid", resourceVersion := "8" }
    summary := { pass := 2, fail := 0, warn := 0, error := 0, skip := 0 }
    results := [{ policy := "policy-new", result := "pass", description := "new" }] }

/-- Attempt outcomes with two update conflicts followed by success. -/
def twoConflictsThenOk : Nat → AttemptOutcome :=
  fun i => if i < 2 then .conflict else .ok

/-- A concrete engine behaviour for witnesses: every scan succeeds and
reaps at the end. -/
def sampleScanOps : ScanOps :=
  { clusterWideTrace := [.scanClusterWideStarted, .evaluation ("policy1") ("namespace1-uid"), .reap]
    clusterWideResult := .ok ()
    namespaceTrace := fun ns => [.scanNamespaceStarted ns, .reap]
    namespaceResult := fun _ => .ok ()
    allNamespacesTrace := [.scanAllNamespacesStarted, .reap]
    allNamespacesResult := .ok () }

/-- SUSE Observability flags with the four string flags supplied and the
repeat-interval flag left to its default. -/
def obsFlagsFourSet : SuseObsCmd.ObsFlags :=
  { suseObsURL := "https://suseobs.localhost"
    suseObsApiKey := "apiKey"
    suseObsUrn := "urn:health:kubernetes:external-health"
    suseObsCluster := "cluster"
    repeatIntervalProvided := false
    expireIntervalProvided := false }

/-! ## Theorems for the claims -/

/-- C6: for every result in a report converted by the observability sink
(namespaced and cluster-scoped paths alike), the emitted check state's
`checkStateId` is the lowercase concatenation of the policy name, the
scope's namespace, kind and name, separated by dashes, with the policy
name repeated at both ends. -/
theorem checkStateId_is_lowercase_policy_scope_concat (s : SuseObsStore) (pr : PolicyReportK) :
    (generateCheckStates s pr).map SuseObsCheckState.checkStateId
        = pr.results.map (fun r =>
            goToLower (r.policy ++ "-" ++ pr.scope.namespc ++ "-" ++ pr.scope.kind ++ "-"
              ++ pr.scope.name ++ "-" ++ r.policy))
      ∧ (generateCheckStatesFromClusterPolicyReport s pr).map SuseObsCheckState.checkStateId
        = pr.results.map (fun r =>
            goToLower (r.policy ++ "-" ++ pr.scope.namespc ++ "-" ++ pr.scope.kind ++ "-"
              ++ pr.scope.name ++ "-" ++ r.policy)) := by
  constructor <;>
    simp [generateCheckStates, generateCheckStatesFromClusterPolicyReport,
      checkStateOfResult, clusterCheckStateOfResult, generateCheckStateId]

/-- C7: the observability sink emits exactly one check state per result of
the converted report — for all outcomes, not only failures — and each check
state's health is `Deviating` exactly when the result's outcome is `fail`
and `Clear` for every other outcome. -/
theorem one_checkState_per_result_health_by_outcome (s : SuseObsStore) (pr : PolicyReportK) :
    (generateCheckStates s pr).length = pr.results.length
      ∧ (generateCheckStates s pr).map SuseObsCheckState.health
        = pr.results.map (fun r => if r.result = "fail" then ("Deviating") else ("Clear")) := by
  constructor <;> simp [generateCheckStates, checkStateOfResult]

/-- C8 counterexample: an HTTP 201 response is a 2xx success status, yet
`sendRequest` returns an error for it, refuting "every 2xx response yields
no error". -/
theorem sendRequest_http201_errors_despite_2xx :
    sendRequest (some []) (.resp 201 ("201 Created"))
        = .error ("SUSE Obs returned an error. Status code: 201 Created")
      ∧ (200 ≤ 201 ∧ 201 < 300) :=
  ⟨rfl, by omega⟩

/-- C8 (amended): `sendRequest` succeeds on a received response if and only
if the status code is exactly 200 (`http.StatusOK`); every other status
code — 2xx or not — returns an error, as does a transport failure. -/
theorem sendRequest_ok_iff_status200 (payload : SuseObsPayload) (statusCode : Nat) (status : String) :
    (sendRequest payload (.resp statusCode status) = .ok () ↔ statusCode = 200)
      ∧ sendRequest payload .netErr = .error ("failed to send SUSE OBS payload") := by
  constructor
  · unfold sendRequest
    split <;> simp_all
  · rfl

/-- C10: when building the start-snapshot payload fails (the configured
base URL does not parse), `BeforeScanning` does not return the construction
error: it proceeds to `sendRequest` with the nil payload, and its return
value is exactly the send's outcome — in particular a 200 response makes it
succeed despite the construction failure. -/
theorem beforeScanning_discards_construction_error (post : PostOutcome) :
    BeforeScanning false post = sendRequest none post
      ∧ BeforeScanning false (.resp 200 ("200 OK")) = .ok () :=
  ⟨rfl, rfl⟩

/-- C9 counterexample: with `--suseobs-url`, `--suseobs-apikey`,
`--suseobs-urn` and `--suseobs-cluster` supplied but
`--suseobs-repeat-interval` left unset, the observability sink is chosen
even though not all five primary flags are set. -/
theorem suseObs_sink_chosen_without_repeat_interval :
    SuseObsCmd.chooseReportStore obsFlagsFourSet = .suseObs
      ∧ ¬ SuseObsCmd.allFivePrimaryObsFlagsSet obsFlagsFourSet := by
  constructor
  · rfl
  · intro h
    exact absurd h.2.2.2.2 (by decide)

/-- String non-emptiness versus Go's `len(s) > 0`. -/
theorem string_length_pos_iff_ne_empty (s : String) : 0 < s.length ↔ s ≠ "" := by
  cases s with
  | mk data => simp [String.length, String.ext_iff, List.length_pos_iff_ne_nil]

/-- C9 (amended): the observability sink replaces the CRD sink if and only
if the four string flags URL, API key, URN and cluster are all non-empty;
the repeat-interval flag is never consulted by the selection. -/
theorem suseObs_sink_iff_four_string_flags (f : SuseObsCmd.ObsFlags) :
    SuseObsCmd.chooseReportStore f = .suseObs ↔
      (f.suseObsURL ≠ "" ∧ f.suseObsApiKey ≠ "" ∧ f.suseObsUrn ≠ "" ∧ f.suseObsCluster ≠ "") := by
  unfold SuseObsCmd.chooseReportStore
  split
  next h =>
    simp only [Bool.and_eq_true, decide_eq_true_eq, gt_iff_lt] at h
    simp only [string_length_pos_iff_ne_empty] at h
    simpa using ⟨h.1.1.1, h.1.1.2, h.1.2, h.2⟩
  next h =>
    simp only [Bool.and_eq_true, decide_eq_true_eq, gt_iff_lt] at h
    constructor
    · intro hcontra
      exact absurd hcontra (by simp)
    · intro hne
      exact absurd ⟨⟨⟨(string_length_pos_iff_ne_empty _).mpr hne.1,
        (string_length_pos_iff_ne_empty _).mpr hne.2.1⟩,
        (string_length_pos_iff_ne_empty _).mpr hne.2.2.1⟩,
        (string_length_pos_iff_ne_empty _).mpr hne.2.2.2⟩ h

/-- Mutating only summary and results leaves the store key untouched. -/
theorem reportKeyMatches_mutate (ns n : String) (q : PolicyReportK)
    (s : PolicyReportSummary) (rs : List PolicyReportResult) :
    reportKeyMatches ns n { q with summary := s, results := rs } = reportKeyMatches ns n q :=
  rfl

/-- Replacing the first key-matching report preserves the store size. -/
theorem updateReportIn_length (st : List PolicyReportK) (ns n : String) (new : PolicyReportK) :
    (updateReportIn st ns n new).length = st.length := by
  induction st with
  | nil => rfl
  | cons p rest ih =>
    unfold updateReportIn
    split <;> simp [ih]

/-- After replacing the first key-matching report by `new` (itself carrying
the key), the keyed lookup returns `new`. -/
theorem find?_updateReportIn (st : List PolicyReportK) (ns n : String)
    (new rOld : PolicyReportK)
    (hfind : st.find? (reportKeyMatches ns n) = some rOld)
    (hnew : reportKeyMatches ns n new = true) :
    (updateReportIn st ns n new).find? (reportKeyMatches ns n) = some new := by
  induction st with
  | nil => simp at hfind
  | cons p rest ih =>
    by_cases hp : reportKeyMatches ns n p = true
    · simp only [updateReportIn, hp, if_true]
      simp [List.find?_cons_of_pos _ hnew]
    · have hp' : reportKeyMatches ns n p = false := by simpa using hp
      simp only [updateReportIn, hp', Bool.false_eq_true, if_false]
      rw [List.find?_cons_of_neg _ (by simp [hp'])] at hfind ⊢
      exact ih hfind

/-- Reports that do not carry the store key survive the in-place update. -/
theorem mem_updateReportIn_of_not_key (st : List PolicyReportK) (ns n : String)
    (new p : PolicyReportK) (hmem : p ∈ st) (hp : reportKeyMatches ns n p = false) :
    p ∈ updateReportIn st ns n new := by
  induction st with
  | nil => simp at hmem
  | cons q rest ih =>
    rcases List.mem_cons.mp hmem with heq | hmem'
    · subst heq
      simp only [updateReportIn, hp, Bool.false_eq_true, if_false]
      exact List.mem_cons_self _ _
    · unfold updateReportIn
      split
      · exact List.mem_cons_of_mem _ hmem'
      · exact List.mem_cons_of_mem _ (ih hmem')

/-- C1 counterexample: starting from a store holding exactly the UID-named
report for pod1, saving the same resource's report again does not upsert:
the existence check looks up the namespace-derived name, never finds the
UID-named report, takes the create path and fails with AlreadyExists. -/
theorem savePolicyReport_repeat_save_conflicts :
    savePolicyReport getNamespacedReportName [pod1Report] pod1Report
        = .error .alreadyExists
      ∧ getPolicyReportFrom getNamespacedReportName [pod1Report] ("namespace1") = none :=
  ⟨rfl, rfl⟩

/-- C1 (amended): `SavePolicyReport` keys its existence check on the
namespace-derived name, so for any incoming report whose name differs from
that key (in particular a UID-named one), the save always takes the create
path: the first save creates the single report under the caller-set name,
and a repeated save for the same resource fails with AlreadyExists instead
of patching. -/
theorem savePolicyReport_uid_named_reports_create_only
    (nm : String → String) (r : PolicyReportK) (h : nm r.namespc ≠ r.name) :
    savePolicyReport nm [] r = .ok [r]
      ∧ savePolicyReport nm [r] r = .error .alreadyExists := by
  have hb : (r.name == nm r.namespc) = false := beq_eq_false_iff_ne.mpr (Ne.symm h)
  constructor
  · simp [savePolicyReport, getPolicyReportFrom, createPolicyReport]
  · simp [savePolicyReport, getPolicyReportFrom, createPolicyReport, reportKeyMatches, hb]

/-- C1 witness: the amended behaviour at the concrete pod1 report with the
concrete namespace-derived naming. -/
theorem savePolicyReport_uid_named_witness :
    getNamespacedReportName pod1Report.namespc ≠ pod1Report.name
      ∧ (savePolicyReport getNamespacedReportName [] pod1Report = .ok [pod1Report]
        ∧ savePolicyReport getNamespacedReportName [pod1Report] pod1Report
            = .error .alreadyExists) :=
  ⟨by decide, savePolicyReport_uid_named_reports_create_only getNamespacedReportName pod1Report (by decide)⟩

/-- C5 counterexample: on the update path the stored report keeps its old
labels, owner references and scope — only summary and results take the new
report's values — and the update is retried under the client-go default
budget of five attempts, not once: a run with two conflicts before success
succeeds under the code's budget but would exhaust a one-retry budget. -/
theorem savePolicyReport_update_keeps_old_labels_ownerRefs_scope :
    savePolicyReport getNamespacedReportName [existingNsReport] incomingNsReport
        = .ok [{ existingNsReport with
                  summary := incomingNsReport.summary, results := incomingNsReport.results }]
      ∧ ({ existingNsReport with
            summary := incomingNsReport.summary,
            results := incomingNsReport.results }).labels ≠ incomingNsReport.labels
      ∧ ({ existingNsReport with
            summary := incomingNsReport.summary,
            results := incomingNsReport.results }).ownerReferences ≠ incomingNsReport.ownerReferences
      ∧ ({ existingNsReport with
            summary := incomingNsReport.summary,
            results := incomingNsReport.results }).scope ≠ incomingNsReport.scope
      ∧ retryOnConflict defaultRetrySteps twoConflictsThenOk = .success
      ∧ retryOnConflict 2 twoConflictsThenOk = .conflictExhausted :=
  ⟨rfl, by decide, by decide, by decide, rfl, rfl⟩

/-- C5 (amended): on the update path of the CRD sink's upsert, exactly the
field subset {summary, results} of the stored report is replaced with the
new report's values; every other field of the existing stored report
(labels, owner references, scope, name, namespace) is left unchanged; the
rest of the store keeps its size and its non-matching reports. -/
theorem savePolicyReport_update_replaces_only_summary_and_results
    (nm : String → String) (st : List PolicyReportK) (rNew rOld : PolicyReportK)
    (hfound : getPolicyReportFrom nm st rNew.namespc = some rOld) :
    ∃ st', savePolicyReport nm st rNew = .ok st'
      ∧ getPolicyReportFrom nm st' rNew.namespc
          = some { rOld with summary := rNew.summary, results := rNew.results }
      ∧ st'.length = st.length
      ∧ (∀ p ∈ st, reportKeyMatches rNew.namespc (nm rNew.namespc) p = false → p ∈ st') := by
  have hfind : st.find? (reportKeyMatches rNew.namespc (nm rNew.namespc)) = some rOld := hfound
  refine ⟨updateReportIn st rNew.namespc (nm rNew.namespc)
      { rOld with summary := rNew.summary, results := rNew.results }, ?_, ?_, ?_, ?_⟩
  · unfold savePolicyReport
    rw [hfound]
  · exact find?_updateReportIn st _ _ _ rOld hfind
      ((reportKeyMatches_mutate _ _ _ _ _).trans (List.find?_some hfind) ▸ rfl)
  · exact updateReportIn_length st _ _ _
  · intro p hmem hp
    exact mem_updateReportIn_of_not_key st _ _ _ p hmem hp

/-- C5 witness: the amended update-path behaviour at the concrete
per-namespace store. -/
theorem savePolicyReport_update_frame_witness :
    getPolicyReportFrom getNamespacedReportName [existingNsReport] incomingNsReport.namespc
        = some existingNsReport
      ∧ ∃ st', savePolicyReport getNamespacedReportName [existingNsReport] incomingNsReport = .ok st'
        ∧ getPolicyReportFrom getNamespacedReportName st' incomingNsReport.namespc
            = some { existingNsReport with
                      summary := incomingNsReport.summary, results := incomingNsReport.results }
        ∧ st'.length = [existingNsReport].length
        ∧ (∀ p ∈ [existingNsReport],
            reportKeyMatches incomingNsReport.namespc
              (getNamespacedReportName incomingNsReport.namespc) p = false → p ∈ st') :=
  ⟨by decide, savePolicyReport_update_replaces_only_summary_and_results
    getNamespacedReportName [existingNsReport] incomingNsReport existingNsReport (by decide)⟩

/-- C2: a policy whose status is not active, or whose `backgroundAudit`
flag is false, never contributes an evaluation result: under
pairwise-distinct policy names, no result of any produced report carries
such a policy's name. -/
theorem inactive_or_nonbackground_policy_contributes_no_result
    (oracle : Policy → String) (ps : List Policy) (obj : K8sObject) (p : Policy)
    (results : List EvaluationResult)
    (hmem : p ∈ ps) (hnames : (ps.map Policy.name).Nodup)
    (hp : p.status ≠ .active ∨ p.backgroundAudit = false)
    (hrep : auditResource oracle ps obj = some results) :
    ∀ r ∈ results, r.policy ≠ p.name := by
  intro r hr heq
  unfold auditResource at hrep
  by_cases he : (auditablePoliciesFor ps obj).isEmpty
  · simp only [he, if_true] at hrep
    exact Option.noConfusion hrep
  · simp only [he, Bool.false_eq_true, if_false, Option.some.injEq] at hrep
    subst hrep
    obtain ⟨q, hq_mem, hq_eq⟩ := List.mem_map.mp hr
    obtain ⟨hq_ps, hq_pred⟩ := List.mem_filter.mp hq_mem
    have hq_active_bg : q.status = .active ∧ q.backgroundAudit = true := by
      have hq_aud : policyIsAuditable q obj.gvr = true := by
        simp only [Bool.and_eq_true] at hq_pred
        exact hq_pred.1
      unfold policyIsAuditable at hq_aud
      simp only [Bool.and_eq_true, decide_eq_true_eq] at hq_aud
      exact ⟨hq_aud.1.1, hq_aud.1.2⟩
    have hname : q.name = p.name := by
      rw [← hq_eq] at heq
      exact heq
    have hqp : q = p := List.inj_on_of_nodup_map hnames hq_ps hmem hname
    cases hp with
    | inl hact => exact hact (hqp ▸ hq_active_bg.1)
    | inr hbg =>
      rw [hqp] at hq_active_bg
      rw [hq_active_bg.2] at hbg
      exact Bool.noConfusion hbg

/-- C2 witness: with one active and one pending pod policy, the produced
report holds exactly the active policy's result and nothing carries the
pending policy's name. -/
theorem inactive_policy_contributes_no_result_witness :
    pendingPodPolicy ∈ [activePodPolicy, pendingPodPolicy]
      ∧ ([activePodPolicy, pendingPodPolicy].map Policy.name).Nodup
      ∧ (pendingPodPolicy.status ≠ .active ∨ pendingPodPolicy.backgroundAudit = false)
      ∧ auditResource (fun _ => "pass") [activePodPolicy, pendingPodPolicy] pod1Object
          = some [{ policy := "policy-a", outcome := "pass" }]
      ∧ ∀ r ∈ [({ policy := "policy-a", outcome := "pass" } : EvaluationResult)],
          r.policy ≠ pendingPodPolicy.name :=
  ⟨by decide, by decide, by decide, by decide,
    inactive_or_nonbackground_policy_contributes_no_result
      (fun _ => "pass") [activePodPolicy, pendingPodPolicy] pod1Object pendingPodPolicy
      [{ policy := "policy-a", outcome := "pass" }]
      (by decide) (by decide) (by decide) (by decide)⟩

/-- C3 (code-bug evidence): with both `--namespace namespace1` and
`--cluster` supplied, the slog-lineage `startScanner` (src/cmd/root.go)
only prints the conflict warning and then still invokes the cluster-wide
scan, returning its value (so a successful scan exits 0); the
zerolog-lineage `startScanner` (src/unnamed/part_002) exits fatally
without invoking any scan. -/
theorem rootCmd_conflicting_flags_still_scans :
    RootCmd.startScanner ("namespace1") true sampleScanOps
        = ([.warnConflict, .work .scanClusterWideStarted,
            .work (.evaluation ("policy1") ("namespace1-uid")), .work .reap], Except.ok ())
      ∧ SuseObsCmd.startScanner ("namespace1") true sampleScanOps = ([.fatalExit], none) :=
  ⟨rfl, rfl⟩

/-- C4: whenever the engine is invoked (the flags are not in the fatal
conflicting combination), the zerolog-lineage `startScanner` emits exactly
one `beforeScan` as the very first event, then only scan work (evaluations
and reap, whatever the engine does), then exactly one `afterScan` as the
very last event; the returned value is the dispatched scan's result,
whether it succeeded or failed. -/
theorem hooks_bracket_every_engine_invocation
    (namespc : String) (clusterWide : Bool) (ops : ScanOps)
    (h : ¬(clusterWide = true ∧ namespc ≠ "")) :
    ∃ ws : List WorkEvent,
      (SuseObsCmd.startScanner namespc clusterWide ops).1
          = [Event.hook .beforeScan] ++ ws.map Event.work ++ [Event.hook .afterScan]
        ∧ (SuseObsCmd.startScanner namespc clusterWide ops).2
          = some (scanDispatch namespc clusterWide ops).2 := by
  refine ⟨(scanDispatch namespc clusterWide ops).1, ?_, ?_⟩ <;>
    simp [SuseObsCmd.startScanner, if_neg h]

/-- C4 witness: the hook bracketing at the default flag combination with a
concrete engine behaviour. -/
theorem hooks_bracket_witness :
    ¬((false : Bool) = true ∧ ("" : String) ≠ "")
      ∧ ∃ ws : List WorkEvent,
        (SuseObsCmd.startScanner ("") false sampleScanOps).1
            = [Event.hook .beforeScan] ++ ws.map Event.work ++ [Event.hook .afterScan]
          ∧ (SuseObsCmd.startScanner ("") false sampleScanOps).2
            = some (scanDispatch ("") false sampleScanOps).2 :=
  ⟨by decide, hooks_bracket_every_engine_invocation ("") false sampleScanOps (by decide)⟩

end AuditScanner
